/-
Verification of the funnel-generation and Coda-table-synchronization logic of
the automated-wbr-update notebooks.

Shallow embedding conventions:
  * Python floats are modelled as exact rationals (ℚ); the numeric literals
    0.40, 0.30, ... of the source become the corresponding exact rationals.
  * Python's built-in `round` (round-half-to-even on the value) is modelled by
    `pyRound` below.
  * Network calls (requests.get/post/delete) are modelled by oracle functions
    passed as explicit parameters; an HTTP response is a status code or a
    raised exception.
  * Dictionaries with a fixed key set become structures; the iteration order of
    `leads_by_partner.items()` is modelled by an association list.
  * String formatting of the display dictionaries (f-strings such as
    '{rate:.1%}') is out of scope; the numeric values feeding it are embedded.
-/
import Mathlib

namespace WbrUpdate

/-- Python's built-in `round`: round to the nearest integer, ties to the even
integer (upmarket_funnel.py uses `round(count * rate)` at every stage). -/
def pyRound (q : ℚ) : ℤ :=
  if q - ⌊q⌋ < 1/2 then ⌊q⌋
  else if 1/2 < q - ⌊q⌋ then ⌊q⌋ + 1
  else if 2 ∣ ⌊q⌋ then ⌊q⌋ else ⌊q⌋ + 1

theorem pyRound_le (q : ℚ) (n : ℤ) (h : q < n + 1/2) : pyRound q ≤ n := by
  have hfl : (⌊q⌋ : ℚ) ≤ q := Int.floor_le q
  have hfn : ⌊q⌋ ≤ n := by
    have : (⌊q⌋ : ℚ) < n + 1/2 := lt_of_le_of_lt hfl h
    have : (⌊q⌋ : ℚ) < n + 1 := by linarith
    exact_mod_cast Int.lt_add_one_iff.mp (by exact_mod_cast this)
  unfold pyRound
  split_ifs with h1 h2 h3
  · exact hfn
  · -- fractional part exceeds 1/2, result ⌊q⌋ + 1
    have : (⌊q⌋ : ℚ) + 1/2 < q := by linarith
    have hlt : (⌊q⌋ : ℚ) < (n : ℚ) := by linarith
    have : ⌊q⌋ < n := by exact_mod_cast hlt
    omega
  · exact hfn
  · -- exact tie with odd floor, result ⌊q⌋ + 1
    have hr : q - ⌊q⌋ = 1/2 := le_antisymm (not_lt.mp h2) (not_lt.mp h1)
    have hlt : (⌊q⌋ : ℚ) < (n : ℚ) := by linarith
    have : ⌊q⌋ < n := by exact_mod_cast hlt
    omega

theorem pyRound_nonneg (q : ℚ) (h : 0 ≤ q) : 0 ≤ pyRound q := by
  have hfl : 0 ≤ ⌊q⌋ := Int.floor_nonneg.mpr h
  unfold pyRound
  split_ifs <;> omega

/-- `pyRound` is an arithmetic nearest-integer rounding: the result is within
half a unit of the argument (truncation toward zero violates this, e.g. at
0.9). -/
theorem pyRound_dist (q : ℚ) : |q - (pyRound q : ℚ)| ≤ 1/2 := by
  have h0 : 0 ≤ q - ⌊q⌋ := by
    have := Int.floor_le q; linarith
  have h1 : q - ⌊q⌋ < 1 := by
    have := Int.lt_floor_add_one q; linarith
  unfold pyRound
  split_ifs with ha hb hc
  · rw [abs_of_nonneg h0]; linarith
  · push_cast
    rw [abs_of_nonpos (by linarith)]
    linarith
  · rw [abs_of_nonneg h0]; linarith
  · push_cast
    rw [abs_of_nonpos (by linarith)]
    have hr : q - ⌊q⌋ = 1/2 := le_antisymm (not_lt.mp hb) (not_lt.mp ha)
    linarith

/-- On an exact tie, `pyRound` picks the even neighbour. -/
theorem pyRound_tie_even (q : ℚ) (h : |q - (pyRound q : ℚ)| = 1/2) :
    Even (pyRound q) := by
  have h0 : 0 ≤ q - ⌊q⌋ := by
    have := Int.floor_le q; linarith
  have h1 : q - ⌊q⌋ < 1 := by
    have := Int.lt_floor_add_one q; linarith
  unfold pyRound at *
  split_ifs at h ⊢ with ha hb hc
  · rw [abs_of_nonneg h0] at h
    exact absurd h (ne_of_lt ha)
  · push_cast at h
    rw [abs_of_nonpos (by linarith)] at h
    have : q - ⌊q⌋ = 1/2 := by linarith
    exact absurd this (ne_of_gt hb)
  · obtain ⟨c, hc'⟩ := hc
    exact ⟨c, by omega⟩
  · have hnd : ¬ (2 ∣ ⌊q⌋) := hc
    refine ⟨(⌊q⌋ + 1) / 2, ?_⟩
    omega

/-- Exactly-half inputs with an even integer part round down. -/
theorem pyRound_half_add_even (n : ℤ) (h : Even n) :
    pyRound ((n : ℚ) + 1/2) = n := by
  have hfl : ⌊(n : ℚ) + 1/2⌋ = n := by
    rw [show (n : ℚ) + 1/2 = 1/2 + n by ring, Int.floor_add_int]
    norm_num
  have hdvd : (2 : ℤ) ∣ n := by
    obtain ⟨r, hr⟩ := h
    exact ⟨r, by omega⟩
  unfold pyRound
  rw [hfl]
  have hr : (n : ℚ) + 1/2 - n = 1/2 := by ring
  rw [hr, if_neg (lt_irrefl (1/2 : ℚ)), if_neg (lt_irrefl (1/2 : ℚ)), if_pos hdvd]

/-! ## upmarket_funnel.py -/

/-- A partner-submitted lead.  The source reads these fields out of a dict
with `lead.get(key, default)`; the structure holds the values after those
defaults have been applied. -/
structure Lead where
  account_id : String
  account_name : String
  current_mrr : ℚ
  user_count : ℤ
  referral_arr : ℚ
  lead_score : ℤ
  qualification_tier : String
deriving DecidableEq, Inhabited

/-- Dataclass `LeadCategory`: lead categorization by segment. -/
structure LeadCategory where
  account_id : String
  account_name : String
  partner : String
  segment : String
  current_mrr : ℚ
  user_count : ℤ
  referral_arr : ℚ
  lead_score : ℤ
  qualification_tier : String
deriving DecidableEq, Inhabited

/-- Dataclass `FunnelMetrics`: funnel stage metrics. -/
structure FunnelMetrics where
  stage : String
  enterprise_count : ℤ
  midmarket_count : ℤ
  smb_count : ℤ
  total_count : ℤ
  estimated_acv : ℚ
  conversion_rate : ℚ
  estimated_revenue : ℚ
deriving DecidableEq, Inhabited

/-- One tier of qualification criteria (the dicts `ENTERPRISE_CRITERIA` and
`MIDMARKET_CRITERIA`). -/
structure Criteria where
  mrr_threshold : ℚ
  user_threshold : ℤ
  arr_threshold : ℚ
  lead_score_min : ℤ

def ENTERPRISE_CRITERIA : Criteria :=
  { mrr_threshold := 1000, user_threshold := 50
    arr_threshold := 12000, lead_score_min := 80 }

def MIDMARKET_CRITERIA : Criteria :=
  { mrr_threshold := 100, user_threshold := 10
    arr_threshold := 1200, lead_score_min := 60 }

/-- Per-segment values (used for ACV and for each conversion-rate row). -/
structure SegmentVals where
  enterprise : ℚ
  midmarket : ℚ
  smb : ℚ

def ESTIMATED_ACV : SegmentVals :=
  { enterprise := 50000, midmarket := 15000, smb := 5000 }

/-- The `CONVERSION_RATES` table, one row per stage transition. -/
structure ConversionRates where
  leads_to_qualified : SegmentVals
  qualified_to_opportunity : SegmentVals
  opportunity_to_closed_won : SegmentVals

def CONVERSION_RATES : ConversionRates :=
  { leads_to_qualified := { enterprise := 0.40, midmarket := 0.30, smb := 0.20 }
    qualified_to_opportunity := { enterprise := 0.60, midmarket := 0.50, smb := 0.40 }
    opportunity_to_closed_won := { enterprise := 0.30, midmarket := 0.25, smb := 0.20 } }

/-- The `segment` local of `categorize_lead`: Enterprise criteria first
(highest priority), then Midmarket, default `'SMB'`. -/
def lead_segment (lead : Lead) : String :=
  if lead.current_mrr ≥ ENTERPRISE_CRITERIA.mrr_threshold ∨
     lead.user_count ≥ ENTERPRISE_CRITERIA.user_threshold ∨
     lead.referral_arr ≥ ENTERPRISE_CRITERIA.arr_threshold ∨
     lead.lead_score ≥ ENTERPRISE_CRITERIA.lead_score_min then "Enterprise"
  else if lead.current_mrr ≥ MIDMARKET_CRITERIA.mrr_threshold ∨
     lead.user_count ≥ MIDMARKET_CRITERIA.user_threshold ∨
     lead.referral_arr ≥ MIDMARKET_CRITERIA.arr_threshold ∨
     lead.lead_score ≥ MIDMARKET_CRITERIA.lead_score_min then "Midmarket"
  else "SMB"

/-- `UpmarketFunnelGenerator.categorize_lead`. -/
def categorize_lead (lead : Lead) (partner : String) : LeadCategory :=
  { account_id := lead.account_id, account_name := lead.account_name
    partner := partner, segment := lead_segment lead, current_mrr := lead.current_mrr
    user_count := lead.user_count, referral_arr := lead.referral_arr
    lead_score := lead.lead_score, qualification_tier := lead.qualification_tier }

/- The local variables of `generate_funnel` are hoisted to top-level functions
of its input (the association list modelling `leads_by_partner.items()`). -/

def categorized_leads (lbp : List (String × List Lead)) : List LeadCategory :=
  (lbp.map (fun pl => pl.2.map (fun lead => categorize_lead lead pl.1))).flatten

def enterprise_count (lbp : List (String × List Lead)) : ℕ :=
  (categorized_leads lbp).countP (fun l => l.segment == "Enterprise")

def midmarket_count (lbp : List (String × List Lead)) : ℕ :=
  (categorized_leads lbp).countP (fun l => l.segment == "Midmarket")

def smb_count (lbp : List (String × List Lead)) : ℕ :=
  (categorized_leads lbp).countP (fun l => l.segment == "SMB")

def total_leads (lbp : List (String × List Lead)) : ℕ :=
  (categorized_leads lbp).length

def qualified_enterprise (lbp : List (String × List Lead)) : ℤ :=
  pyRound ((enterprise_count lbp : ℚ) * CONVERSION_RATES.leads_to_qualified.enterprise)

def qualified_midmarket (lbp : List (String × List Lead)) : ℤ :=
  pyRound ((midmarket_count lbp : ℚ) * CONVERSION_RATES.leads_to_qualified.midmarket)

def qualified_smb (lbp : List (String × List Lead)) : ℤ :=
  pyRound ((smb_count lbp : ℚ) * CONVERSION_RATES.leads_to_qualified.smb)

def qualified_total (lbp : List (String × List Lead)) : ℤ :=
  qualified_enterprise lbp + qualified_midmarket lbp + qualified_smb lbp

def opp_enterprise (lbp : List (String × List Lead)) : ℤ :=
  pyRound ((qualified_enterprise lbp : ℚ) * CONVERSION_RATES.qualified_to_opportunity.enterprise)

def opp_midmarket (lbp : List (String × List Lead)) : ℤ :=
  pyRound ((qualified_midmarket lbp : ℚ) * CONVERSION_RATES.qualified_to_opportunity.midmarket)

def opp_smb (lbp : List (String × List Lead)) : ℤ :=
  pyRound ((qualified_smb lbp : ℚ) * CONVERSION_RATES.qualified_to_opportunity.smb)

def opp_total (lbp : List (String × List Lead)) : ℤ :=
  opp_enterprise lbp + opp_midmarket lbp + opp_smb lbp

def won_enterprise (lbp : List (String × List Lead)) : ℤ :=
  pyRound ((opp_enterprise lbp : ℚ) * CONVERSION_RATES.opportunity_to_closed_won.enterprise)

def won_midmarket (lbp : List (String × List Lead)) : ℤ :=
  pyRound ((opp_midmarket lbp : ℚ) * CONVERSION_RATES.opportunity_to_closed_won.midmarket)

def won_smb (lbp : List (String × List Lead)) : ℤ :=
  pyRound ((opp_smb lbp : ℚ) * CONVERSION_RATES.opportunity_to_closed_won.smb)

def won_total (lbp : List (String × List Lead)) : ℤ :=
  won_enterprise lbp + won_midmarket lbp + won_smb lbp

def estimated_revenue (lbp : List (String × List Lead)) : ℚ :=
  (won_enterprise lbp : ℚ) * ESTIMATED_ACV.enterprise +
  (won_midmarket lbp : ℚ) * ESTIMATED_ACV.midmarket +
  (won_smb lbp : ℚ) * ESTIMATED_ACV.smb

def target_progress (lbp : List (String × List Lead)) (current_quarter_target : ℚ) : ℚ :=
  if current_quarter_target > 0 then
    estimated_revenue lbp / current_quarter_target * 100
  else 0

/-- The `'summary'` dict of the return value.  `Target Progress` is stored
formatted (`f-string`) in the source; the numeric value feeding the format is
embedded. -/
structure FunnelSummary where
  current_quarter_target : ℚ
  total_leads : ℕ
  enterprise_leads : ℕ
  midmarket_leads : ℕ
  smb_leads : ℕ
  estimated_revenue : ℚ
  target_progress : ℚ
  gap_to_target : ℚ
deriving DecidableEq, Inhabited

/-- The dict returned by `generate_funnel`.  The `'funnel_stages'` list of the
source holds display dicts built from the four `FunnelMetrics` values; the
numeric content is identical, so the stage records themselves are returned. -/
structure FunnelResult where
  funnel_stages : List FunnelMetrics
  summary : FunnelSummary
  categorized_leads : List LeadCategory
deriving DecidableEq, Inhabited

/-- `UpmarketFunnelGenerator.generate_funnel`. -/
def generate_funnel (lbp : List (String × List Lead))
    (current_quarter_target : ℚ) : FunnelResult :=
  { funnel_stages :=
      [ { stage := "Leads"
          enterprise_count := (enterprise_count lbp : ℤ)
          midmarket_count := (midmarket_count lbp : ℤ)
          smb_count := (smb_count lbp : ℤ)
          total_count := (total_leads lbp : ℤ)
          estimated_acv := 0
          conversion_rate := 1
          estimated_revenue := 0 }
      , { stage := "Qualified"
          enterprise_count := qualified_enterprise lbp
          midmarket_count := qualified_midmarket lbp
          smb_count := qualified_smb lbp
          total_count := qualified_total lbp
          estimated_acv := 0
          conversion_rate :=
            if 0 < total_leads lbp then
              (qualified_total lbp : ℚ) / (total_leads lbp : ℚ)
            else 0
          estimated_revenue := 0 }
      , { stage := "Opportunities"
          enterprise_count := opp_enterprise lbp
          midmarket_count := opp_midmarket lbp
          smb_count := opp_smb lbp
          total_count := opp_total lbp
          estimated_acv := 0
          conversion_rate :=
            if 0 < qualified_total lbp then
              (opp_total lbp : ℚ) / (qualified_total lbp : ℚ)
            else 0
          estimated_revenue := 0 }
      , { stage := "Closed Won"
          enterprise_count := won_enterprise lbp
          midmarket_count := won_midmarket lbp
          smb_count := won_smb lbp
          total_count := won_total lbp
          estimated_acv := ESTIMATED_ACV.enterprise
          conversion_rate :=
            if 0 < opp_total lbp then
              (won_total lbp : ℚ) / (opp_total lbp : ℚ)
            else 0
          estimated_revenue := estimated_revenue lbp } ]
    summary :=
      { current_quarter_target := current_quarter_target
        total_leads := total_leads lbp
        enterprise_leads := enterprise_count lbp
        midmarket_leads := midmarket_count lbp
        smb_leads := smb_count lbp
        estimated_revenue := estimated_revenue lbp
        target_progress := target_progress lbp current_quarter_target
        gap_to_target := current_quarter_target - estimated_revenue lbp }
    categorized_leads := categorized_leads lbp }

/-! ## Funnel-generator lemmas and claim theorems -/

theorem pyRound_nat_bound (n : ℕ) (r : ℚ) (hr0 : 0 ≤ r) (hr1 : r ≤ 1) :
    0 ≤ pyRound ((n : ℚ) * r) ∧ pyRound ((n : ℚ) * r) ≤ (n : ℤ) := by
  constructor
  · exact pyRound_nonneg _ (mul_nonneg (by positivity) hr0)
  · apply pyRound_le
    have h : (n : ℚ) * r ≤ n := mul_le_of_le_one_right (by positivity) hr1
    push_cast
    linarith

theorem pyRound_int_bound (n : ℤ) (hn : 0 ≤ n) (r : ℚ) (hr0 : 0 ≤ r) (hr1 : r ≤ 1) :
    0 ≤ pyRound ((n : ℚ) * r) ∧ pyRound ((n : ℚ) * r) ≤ n := by
  have hnq : (0 : ℚ) ≤ (n : ℚ) := by exact_mod_cast hn
  constructor
  · exact pyRound_nonneg _ (mul_nonneg hnq hr0)
  · apply pyRound_le
    have h : (n : ℚ) * r ≤ n := mul_le_of_le_one_right hnq hr1
    linarith

/-- C1: in `generate_funnel`, at each of the three stage transitions and for
every segment (Enterprise, Midmarket, SMB), the later stage's per-segment
count is at most the preceding stage's corresponding count, on every input. -/
theorem funnel_stage_counts_never_increase (lbp : List (String × List Lead)) (t : ℚ) :
    (((generate_funnel lbp t).funnel_stages.getD 1 default).enterprise_count ≤
       ((generate_funnel lbp t).funnel_stages.getD 0 default).enterprise_count ∧
     ((generate_funnel lbp t).funnel_stages.getD 1 default).midmarket_count ≤
       ((generate_funnel lbp t).funnel_stages.getD 0 default).midmarket_count ∧
     ((generate_funnel lbp t).funnel_stages.getD 1 default).smb_count ≤
       ((generate_funnel lbp t).funnel_stages.getD 0 default).smb_count) ∧
    (((generate_funnel lbp t).funnel_stages.getD 2 default).enterprise_count ≤
       ((generate_funnel lbp t).funnel_stages.getD 1 default).enterprise_count ∧
     ((generate_funnel lbp t).funnel_stages.getD 2 default).midmarket_count ≤
       ((generate_funnel lbp t).funnel_stages.getD 1 default).midmarket_count ∧
     ((generate_funnel lbp t).funnel_stages.getD 2 default).smb_count ≤
       ((generate_funnel lbp t).funnel_stages.getD 1 default).smb_count) ∧
    (((generate_funnel lbp t).funnel_stages.getD 3 default).enterprise_count ≤
       ((generate_funnel lbp t).funnel_stages.getD 2 default).enterprise_count ∧
     ((generate_funnel lbp t).funnel_stages.getD 3 default).midmarket_count ≤
       ((generate_funnel lbp t).funnel_stages.getD 2 default).midmarket_count ∧
     ((generate_funnel lbp t).funnel_stages.getD 3 default).smb_count ≤
       ((generate_funnel lbp t).funnel_stages.getD 2 default).smb_count) := by
  have hq_e := pyRound_nat_bound (enterprise_count lbp) 0.40 (by norm_num) (by norm_num)
  have hq_m := pyRound_nat_bound (midmarket_count lbp) 0.30 (by norm_num) (by norm_num)
  have hq_s := pyRound_nat_bound (smb_count lbp) 0.20 (by norm_num) (by norm_num)
  have ho_e := pyRound_int_bound (qualified_enterprise lbp) hq_e.1 0.60 (by norm_num) (by norm_num)
  have ho_m := pyRound_int_bound (qualified_midmarket lbp) hq_m.1 0.50 (by norm_num) (by norm_num)
  have ho_s := pyRound_int_bound (qualified_smb lbp) hq_s.1 0.40 (by norm_num) (by norm_num)
  have hw_e := pyRound_int_bound (opp_enterprise lbp) ho_e.1 0.30 (by norm_num) (by norm_num)
  have hw_m := pyRound_int_bound (opp_midmarket lbp) ho_m.1 0.25 (by norm_num) (by norm_num)
  have hw_s := pyRound_int_bound (opp_smb lbp) ho_s.1 0.20 (by norm_num) (by norm_num)
  refine ⟨⟨hq_e.2, hq_m.2, hq_s.2⟩, ⟨ho_e.2, ho_m.2, ho_s.2⟩, hw_e.2, hw_m.2, hw_s.2⟩

/-- Segment order used to compare classifications: Enterprise over Midmarket
over SMB. -/
def segment_rank (s : String) : ℕ :=
  if s = "Enterprise" then 2 else if s = "Midmarket" then 1 else 0

/-- C2: `categorize_lead` is monotone in the four signals: raising
`current_mrr`, `user_count`, `referral_arr` or `lead_score` (each hypothesis
allows any subset to rise, so in particular any single one) never moves the
assigned segment to a lower tier. -/
theorem categorize_lead_monotone (l l' : Lead) (p : String)
    (h1 : l.current_mrr ≤ l'.current_mrr) (h2 : l.user_count ≤ l'.user_count)
    (h3 : l.referral_arr ≤ l'.referral_arr) (h4 : l.lead_score ≤ l'.lead_score) :
    segment_rank (categorize_lead l p).segment ≤
      segment_rank (categorize_lead l' p).segment := by
  show segment_rank (lead_segment l) ≤ segment_rank (lead_segment l')
  unfold lead_segment
  by_cases hE : (l.current_mrr ≥ ENTERPRISE_CRITERIA.mrr_threshold ∨
      l.user_count ≥ ENTERPRISE_CRITERIA.user_threshold ∨
      l.referral_arr ≥ ENTERPRISE_CRITERIA.arr_threshold ∨
      l.lead_score ≥ ENTERPRISE_CRITERIA.lead_score_min)
  · have hE' : (l'.current_mrr ≥ ENTERPRISE_CRITERIA.mrr_threshold ∨
        l'.user_count ≥ ENTERPRISE_CRITERIA.user_threshold ∨
        l'.referral_arr ≥ ENTERPRISE_CRITERIA.arr_threshold ∨
        l'.lead_score ≥ ENTERPRISE_CRITERIA.lead_score_min) := by
      rcases hE with h | h | h | h
      · exact Or.inl (le_trans h h1)
      · exact Or.inr (Or.inl (le_trans h h2))
      · exact Or.inr (Or.inr (Or.inl (le_trans h h3)))
      · exact Or.inr (Or.inr (Or.inr (le_trans h h4)))
    rw [if_pos hE, if_pos hE']
  · rw [if_neg hE]
    by_cases hM : (l.current_mrr ≥ MIDMARKET_CRITERIA.mrr_threshold ∨
        l.user_count ≥ MIDMARKET_CRITERIA.user_threshold ∨
        l.referral_arr ≥ MIDMARKET_CRITERIA.arr_threshold ∨
        l.lead_score ≥ MIDMARKET_CRITERIA.lead_score_min)
    · have hM' : (l'.current_mrr ≥ MIDMARKET_CRITERIA.mrr_threshold ∨
          l'.user_count ≥ MIDMARKET_CRITERIA.user_threshold ∨
          l'.referral_arr ≥ MIDMARKET_CRITERIA.arr_threshold ∨
          l'.lead_score ≥ MIDMARKET_CRITERIA.lead_score_min) := by
        rcases hM with h | h | h | h
        · exact Or.inl (le_trans h h1)
        · exact Or.inr (Or.inl (le_trans h h2))
        · exact Or.inr (Or.inr (Or.inl (le_trans h h3)))
        · exact Or.inr (Or.inr (Or.inr (le_trans h h4)))
      rw [if_pos hM]
      by_cases hE' : (l'.current_mrr ≥ ENTERPRISE_CRITERIA.mrr_threshold ∨
          l'.user_count ≥ ENTERPRISE_CRITERIA.user_threshold ∨
          l'.referral_arr ≥ ENTERPRISE_CRITERIA.arr_threshold ∨
          l'.lead_score ≥ ENTERPRISE_CRITERIA.lead_score_min)
      · rw [if_pos hE']
        decide
      · rw [if_neg hE', if_pos hM']
    · rw [if_neg hM]
      have h0 : segment_rank "SMB" = 0 := by decide
      rw [h0]
      exact Nat.zero_le _

/-- Inputs for the C2 witness: a lead with no qualifying signal and the same
lead with its MRR raised to the Enterprise threshold. -/
def c2_low : Lead :=
  { account_id := "a1", account_name := "Low", current_mrr := 0, user_count := 0
    referral_arr := 0, lead_score := 0, qualification_tier := "Unqualified" }

def c2_high : Lead :=
  { account_id := "a1", account_name := "Low", current_mrr := 1000, user_count := 0
    referral_arr := 0, lead_score := 0, qualification_tier := "Unqualified" }

theorem categorize_lead_monotone_witness :
    segment_rank (categorize_lead c2_low "p").segment ≤
      segment_rank (categorize_lead c2_high "p").segment :=
  categorize_lead_monotone c2_low c2_high "p"
    (by decide) (by decide) (by decide) (by decide)

/-- C3: each later stage's per-segment count is exactly
`pyRound` of the previous stage's per-segment count times the configured
conversion rate for that segment and transition, and `pyRound` is an
arithmetic nearest-integer rounding that breaks ties toward the even integer
(round-half-to-even, not truncation toward zero). -/
theorem funnel_stage_counts_round_of_prev (lbp : List (String × List Lead)) (t : ℚ) :
    (((generate_funnel lbp t).funnel_stages.getD 1 default).enterprise_count =
       pyRound ((((generate_funnel lbp t).funnel_stages.getD 0 default).enterprise_count : ℚ) *
         CONVERSION_RATES.leads_to_qualified.enterprise) ∧
     ((generate_funnel lbp t).funnel_stages.getD 1 default).midmarket_count =
       pyRound ((((generate_funnel lbp t).funnel_stages.getD 0 default).midmarket_count : ℚ) *
         CONVERSION_RATES.leads_to_qualified.midmarket) ∧
     ((generate_funnel lbp t).funnel_stages.getD 1 default).smb_count =
       pyRound ((((generate_funnel lbp t).funnel_stages.getD 0 default).smb_count : ℚ) *
         CONVERSION_RATES.leads_to_qualified.smb)) ∧
    (((generate_funnel lbp t).funnel_stages.getD 2 default).enterprise_count =
       pyRound ((((generate_funnel lbp t).funnel_stages.getD 1 default).enterprise_count : ℚ) *
         CONVERSION_RATES.qualified_to_opportunity.enterprise) ∧
     ((generate_funnel lbp t).funnel_stages.getD 2 default).midmarket_count =
       pyRound ((((generate_funnel lbp t).funnel_stages.getD 1 default).midmarket_count : ℚ) *
         CONVERSION_RATES.qualified_to_opportunity.midmarket) ∧
     ((generate_funnel lbp t).funnel_stages.getD 2 default).smb_count =
       pyRound ((((generate_funnel lbp t).funnel_stages.getD 1 default).smb_count : ℚ) *
         CONVERSION_RATES.qualified_to_opportunity.smb)) ∧
    (((generate_funnel lbp t).funnel_stages.getD 3 default).enterprise_count =
       pyRound ((((generate_funnel lbp t).funnel_stages.getD 2 default).enterprise_count : ℚ) *
         CONVERSION_RATES.opportunity_to_closed_won.enterprise) ∧
     ((generate_funnel lbp t).funnel_stages.getD 3 default).midmarket_count =
       pyRound ((((generate_funnel lbp t).funnel_stages.getD 2 default).midmarket_count : ℚ) *
         CONVERSION_RATES.opportunity_to_closed_won.midmarket) ∧
     ((generate_funnel lbp t).funnel_stages.getD 3 default).smb_count =
       pyRound ((((generate_funnel lbp t).funnel_stages.getD 2 default).smb_count : ℚ) *
         CONVERSION_RATES.opportunity_to_closed_won.smb)) ∧
    (∀ q : ℚ, |q - (pyRound q : ℚ)| ≤ 1/2 ∧
      (|q - (pyRound q : ℚ)| = 1/2 → Even (pyRound q))) := by
  refine ⟨⟨?_, ?_, ?_⟩, ⟨rfl, rfl, rfl⟩, ⟨rfl, rfl, rfl⟩,
    fun q => ⟨pyRound_dist q, pyRound_tie_even q⟩⟩
  · show qualified_enterprise lbp =
      pyRound (((enterprise_count lbp : ℤ) : ℚ) * CONVERSION_RATES.leads_to_qualified.enterprise)
    rw [Int.cast_natCast]
    rfl
  · show qualified_midmarket lbp =
      pyRound (((midmarket_count lbp : ℤ) : ℚ) * CONVERSION_RATES.leads_to_qualified.midmarket)
    rw [Int.cast_natCast]
    rfl
  · show qualified_smb lbp =
      pyRound (((smb_count lbp : ℤ) : ℚ) * CONVERSION_RATES.leads_to_qualified.smb)
    rw [Int.cast_natCast]
    rfl

theorem funnel_stage_counts_round_of_prev_witness : Even (pyRound ((1:ℚ)/2)) :=
  ((funnel_stage_counts_round_of_prev [] 0).2.2.2 (1/2)).2 (by
    have h0 : pyRound ((1:ℚ)/2) = 0 := by norm_num [pyRound]
    rw [h0]
    norm_num)

/-- C4: with a zero quarter target the summary's `target_progress` is 0 for
every input (the division is behind the `current_quarter_target > 0` guard,
which a zero target falsifies). -/
theorem target_progress_zero_when_target_zero (lbp : List (String × List Lead)) :
    (generate_funnel lbp 0).summary.target_progress = 0 := by
  show target_progress lbp 0 = 0
  unfold target_progress
  rw [if_neg (lt_irrefl 0)]

/-- Input for C10: three Midmarket leads (MRR exactly at the Midmarket
threshold, every other signal below every threshold). -/
def c10_lead : Lead :=
  { account_id := "a1", account_name := "Mid", current_mrr := 100, user_count := 0
    referral_arr := 0, lead_score := 0, qualification_tier := "Unqualified" }

def c10_input : List (String × List Lead) := [("PartnerA", [c10_lead, c10_lead, c10_lead])]

/-- C10: the stage-count rounding is round-half-to-even (exactly-half products
with an even integer part round down), and on an input with exactly one
qualified Midmarket lead the Opportunities Midmarket count is
`pyRound (1 × 0.50) = 0`: a small nonzero count collapses to zero at the next
stage. -/
theorem round_half_even_stage_collapse :
    (∀ n : ℤ, Even n → pyRound ((n : ℚ) + 1/2) = n) ∧
    (1 : ℚ) * CONVERSION_RATES.qualified_to_opportunity.midmarket = 1/2 ∧
    ((generate_funnel c10_input 20000).funnel_stages.getD 1 default).midmarket_count = 1 ∧
    ((generate_funnel c10_input 20000).funnel_stages.getD 2 default).midmarket_count = 0 := by
  have hmc : midmarket_count c10_input = 3 := by decide
  have hq : qualified_midmarket c10_input = 1 := by
    show pyRound ((midmarket_count c10_input : ℚ) *
      CONVERSION_RATES.leads_to_qualified.midmarket) = 1
    rw [hmc]
    norm_num [pyRound, CONVERSION_RATES]
  have ho : opp_midmarket c10_input = 0 := by
    show pyRound ((qualified_midmarket c10_input : ℚ) *
      CONVERSION_RATES.qualified_to_opportunity.midmarket) = 0
    rw [hq]
    norm_num [pyRound, CONVERSION_RATES]
  exact ⟨pyRound_half_add_even, by norm_num [CONVERSION_RATES], hq, ho⟩

theorem round_half_even_stage_collapse_witness :
    pyRound (((4 : ℤ) : ℚ) + 1/2) = (4 : ℤ) :=
  round_half_even_stage_collapse.1 4 ⟨2, by norm_num⟩

/-! ## coda_updater.py — CodaUpdater

Each `requests.*` call is modelled by an oracle function supplied as a
parameter; the remote's answer for one call is a status code or a raised
exception. -/

/-- Outcome of one `requests.delete` call in `delete_rows`. -/
inductive DeleteOutcome where
  | status (code : ℕ)
  | exc (msg : String)
deriving DecidableEq

/-- The loop body's success test: `response.status_code in [200, 204]`; a
raised exception is swallowed by the bare `except: pass`. -/
def delete_row_success (o : DeleteOutcome) : Bool :=
  match o with
  | .status code => code == 200 || code == 204
  | .exc _ => false

/-- The `for row_id in row_ids` loop of `CodaUpdater.delete_rows`, returning
`deleted_count` together with the list of row ids for which a DELETE request
was issued (the model's trace of attempted deletions). -/
def delete_rows_run (outcome : String → DeleteOutcome) (row_ids : List String) :
    ℕ × List String :=
  row_ids.foldl
    (fun acc row_id =>
      ((if delete_row_success (outcome row_id) then acc.1 + 1 else acc.1),
       acc.2 ++ [row_id]))
    (0, [])

/-- `CodaUpdater.delete_rows`: early `True` on an empty list, otherwise the
loop followed by `return deleted_count == len(row_ids)`. -/
def delete_rows (outcome : String → DeleteOutcome) (row_ids : List String) : Bool :=
  if row_ids.isEmpty then true
  else (delete_rows_run outcome row_ids).1 == row_ids.length

theorem delete_rows_run_spec (outcome : String → DeleteOutcome)
    (row_ids : List String) :
    delete_rows_run outcome row_ids =
      (row_ids.countP (fun r => delete_row_success (outcome r)), row_ids) := by
  have key : ∀ (l : List String) (n : ℕ) (t : List String),
      l.foldl (fun acc row_id =>
          ((if delete_row_success (outcome row_id) then acc.1 + 1 else acc.1),
           acc.2 ++ [row_id])) (n, t) =
        (n + l.countP (fun r => delete_row_success (outcome r)), t ++ l) := by
    intro l
    induction l with
    | nil => intro n t; simp
    | cons x xs ih =>
      intro n t
      simp only [List.foldl_cons, List.countP_cons]
      by_cases hx : delete_row_success (outcome x)
      · rw [if_pos hx, ih]
        simp [hx]
        omega
      · rw [if_neg hx, ih]
        simp [hx]
  unfold delete_rows_run
  rw [key]
  simp

/-- Oracles for the C5 counterexample: under `c5_outcome_one` only row `r1`'s
DELETE succeeds; under `c5_outcome_none` every DELETE raises. -/
def c5_outcome_one : String → DeleteOutcome :=
  fun row_id => if row_id = "r1" then .status 200 else .exc "boom"

def c5_outcome_none : String → DeleteOutcome :=
  fun _ => .exc "boom"

/-- C5 counterexample: `delete_rows` does not return the count of rows
successfully deleted — two runs over the same row ids in which 1 and 0
deletions succeed produce the identical return value (the boolean `False`),
so the return value is not the count. -/
theorem delete_rows_not_count :
    (delete_rows_run c5_outcome_one ["r1", "r2"]).1 = 1 ∧
    (delete_rows_run c5_outcome_none ["r1", "r2"]).1 = 0 ∧
    delete_rows c5_outcome_one ["r1", "r2"] =
      delete_rows c5_outcome_none ["r1", "r2"] := by
  refine ⟨?_, ?_, ?_⟩ <;> decide

/-- C5 (amended): `delete_rows` issues a DELETE for every row id in the list —
a failure on one row never prevents the remaining rows from being attempted —
and returns `True` exactly when the count of successful deletions equals the
number of row ids (not the count itself). -/
theorem delete_rows_attempts_all (outcome : String → DeleteOutcome)
    (row_ids : List String) :
    (delete_rows_run outcome row_ids).2 = row_ids ∧
    (delete_rows outcome row_ids = true ↔
      (delete_rows_run outcome row_ids).1 = row_ids.length) := by
  constructor
  · rw [delete_rows_run_spec]
  · unfold delete_rows
    by_cases h : row_ids.isEmpty
    · rw [if_pos h]
      have : row_ids = [] := List.isEmpty_iff.mp h
      subst this
      simp [delete_rows_run]
    · rw [if_neg h]
      simp

/-- Input account record of `update_accounts_table` (an `AccountSnapshot`
object or dict, after the `acc_dict.get(key, default)` defaults). -/
structure AccountSnapshot where
  account_id : String
  owner_email : String
  company_name : String
  plan_name : String
  plan_family : String
  plan_arr : ℚ
  upmarket_customer : String
  role_vertical : String
  role_clean : String
  company_size : String
  apps_used_28d : ℤ
  tasks_success_billable : ℤ
deriving DecidableEq, Inhabited

/-- The `row_data` dict built per account inside `update_accounts_table`;
field names stand for the Coda column names of the source. -/
structure RowData where
  account_id : String
  owner_email : String
  company_name : String
  plan_name : String
  plan_family : String
  plan_arr : ℚ
  upmarket_customer : String
  role_vertical : String
  role_clean : String
  company_size : String
  apps_used_28d : ℤ
  tasks_success_billable : ℤ
  last_updated : String
  partner : String
deriving DecidableEq, Inhabited

/-- Row formatting of `update_accounts_table`; `today` models the
`datetime.now().strftime(...)` string. -/
def account_row_data (today partner : String) (acc : AccountSnapshot) : RowData :=
  { account_id := acc.account_id, owner_email := acc.owner_email
    company_name := acc.company_name, plan_name := acc.plan_name
    plan_family := acc.plan_family, plan_arr := acc.plan_arr
    upmarket_customer := acc.upmarket_customer, role_vertical := acc.role_vertical
    role_clean := acc.role_clean, company_size := acc.company_size
    apps_used_28d := acc.apps_used_28d
    tasks_success_billable := acc.tasks_success_billable
    last_updated := today, partner := partner }

/-- The result dict of `update_accounts_table`:
`{"updated": ..., "total": ..., "errors": [...]}`. -/
structure UpdateReport where
  updated : ℕ
  total : ℕ
  errors : List String
deriving DecidableEq, Inhabited

/-- The per-row upsert loop of `update_accounts_table`; `upsert` is the oracle
for `self.upsert_row` (`.ok` = the POST returned 2xx, `.error e` = the
exception text). -/
def upsert_accounts_loop (upsert : RowData → Except String Unit)
    (rows : List RowData) (acc : ℕ × List String) : ℕ × List String :=
  rows.foldl
    (fun st row =>
      match upsert row with
      | .ok _ => (st.1 + 1, st.2)
      | .error e => (st.1, st.2 ++ ["Account " ++ row.account_id ++ ": " ++ e]))
    acc

/-- `CodaUpdater.update_accounts_table`, from the point where the table id has
been resolved: format all rows, upsert each independently, report. -/
def update_accounts_table (upsert : RowData → Except String Unit)
    (today partner : String) (accounts : List AccountSnapshot) : UpdateReport :=
  let account_dicts := accounts.map (account_row_data today partner)
  let res := upsert_accounts_loop upsert account_dicts (0, [])
  { updated := res.1, total := account_dicts.length, errors := res.2 }

def upsert_ok (upsert : RowData → Except String Unit) (row : RowData) : Bool :=
  match upsert row with
  | .ok _ => true
  | .error _ => false

/-- The error entry a failed row contributes: `"Account {key}: {message}"`,
referencing the row's `Account ID` key. -/
def upsert_err_entry (upsert : RowData → Except String Unit) (row : RowData) :
    Option String :=
  match upsert row with
  | .ok _ => none
  | .error e => some ("Account " ++ row.account_id ++ ": " ++ e)

theorem upsert_accounts_loop_spec (upsert : RowData → Except String Unit)
    (rows : List RowData) (n : ℕ) (es : List String) :
    upsert_accounts_loop upsert rows (n, es) =
      (n + rows.countP (upsert_ok upsert),
       es ++ rows.filterMap (upsert_err_entry upsert)) := by
  induction rows generalizing n es with
  | nil => simp [upsert_accounts_loop]
  | cons x xs ih =>
    unfold upsert_accounts_loop at *
    simp only [List.foldl_cons, List.countP_cons, List.filterMap_cons]
    cases hx : upsert x with
    | ok u =>
      rw [ih]
      have hx1 : upsert_ok upsert x = true := by simp [upsert_ok, hx]
      have hx2 : upsert_err_entry upsert x = none := by simp [upsert_err_entry, hx]
      rw [hx1, hx2]
      simp
      omega
    | error e =>
      rw [ih]
      have hx1 : upsert_ok upsert x = false := by simp [upsert_ok, hx]
      have hx2 : upsert_err_entry upsert x =
          some ("Account " ++ x.account_id ++ ": " ++ e) := by
        simp [upsert_err_entry, hx]
      rw [hx1, hx2]
      simp

/-- A five-row batch and an oracle under which exactly the third row's upsert
fails, for the concrete part of C6. -/
def c6_acc (i : String) : AccountSnapshot :=
  { account_id := i, owner_email := "o@x", company_name := "C", plan_name := "P"
    plan_family := "F", plan_arr := 0, upmarket_customer := "No"
    role_vertical := "", role_clean := "", company_size := ""
    apps_used_28d := 0, tasks_success_billable := 0 }

def c6_accounts : List AccountSnapshot :=
  [c6_acc "A1", c6_acc "A2", c6_acc "A3", c6_acc "A4", c6_acc "A5"]

def c6_upsert : RowData → Except String Unit :=
  fun row => if row.account_id = "A3" then .error "boom" else .ok ()

/-- C6: a per-row upsert failure does not abort the batch: the report's
`updated` counts exactly the successful rows, `total` is the whole batch size,
and `errors` holds one `"Account {key}: ..."` entry per failed row — and on a
five-row batch where exactly row 3 fails the report is
`{updated := 4, total := 5, errors := ["Account A3: boom"]}`. -/
theorem update_accounts_table_partial_failure :
    (∀ (upsert : RowData → Except String Unit) (today partner : String)
        (accounts : List AccountSnapshot),
      (update_accounts_table upsert today partner accounts).updated =
        (accounts.map (account_row_data today partner)).countP (upsert_ok upsert) ∧
      (update_accounts_table upsert today partner accounts).total = accounts.length ∧
      (update_accounts_table upsert today partner accounts).errors =
        (accounts.map (account_row_data today partner)).filterMap
          (upsert_err_entry upsert)) ∧
    update_accounts_table c6_upsert "01/01/2026" "Pyxis" c6_accounts =
      { updated := 4, total := 5, errors := ["Account A3: boom"] } := by
  constructor
  · intro upsert today partner accounts
    unfold update_accounts_table
    dsimp only
    rw [upsert_accounts_loop_spec]
    simp
  · decide

/-- One item of the tables listing (`{id, name, type}`). -/
structure TableItem where
  id : String
  name : String
  tableType : String
deriving DecidableEq, Inhabited

/-- One JSON response of `GET .../tables`: its `items` plus the optional
`nextPageToken`. -/
structure TablesPage where
  items : List TableItem
  nextPageToken : Option String
deriving DecidableEq, Inhabited

/-- The dict `{'items': all_items}` that `list_tables` returns. -/
structure TablesResult where
  items : List TableItem
deriving DecidableEq, Inhabited

/-- The `while True` pagination loop of `CodaUpdater.list_tables`.  The remote
is modelled as the sequence of responses successive requests receive (the
`pageToken` param forwarded on each iteration selects the next element); if
the model's response sequence runs out while a token is still pending the
loop stops — the real loop would issue another request, so theorems assume the
final response carries no token. -/
def list_tables_go (acc : List TableItem) : List TablesPage → List TableItem
  | [] => acc
  | page :: rest =>
    match page.nextPageToken with
    | none => acc ++ page.items
    | some _ => list_tables_go (acc ++ page.items) rest

/-- `CodaUpdater.list_tables`. -/
def list_tables (responses : List TablesPage) : TablesResult :=
  { items := list_tables_go [] responses }

theorem list_tables_go_spec (responses : List TablesPage) (p : TablesPage)
    (hlast : responses.getLast? = some p) (hnone : p.nextPageToken = none)
    (hmid : ∀ q ∈ responses.dropLast, (q.nextPageToken).isSome) :
    ∀ acc, list_tables_go acc responses =
      acc ++ (responses.map TablesPage.items).flatten := by
  induction responses with
  | nil => simp at hlast
  | cons x xs ih =>
    intro acc
    cases xs with
    | nil =>
      simp at hlast
      subst hlast
      unfold list_tables_go
      rw [hnone]
      simp
    | cons y ys =>
      have hx : (x.nextPageToken).isSome := by
        apply hmid
        simp [List.dropLast]
      obtain ⟨tok, htok⟩ := Option.isSome_iff_exists.mp hx
      unfold list_tables_go
      rw [htok]
      have hlast' : (y :: ys).getLast? = some p := by
        rwa [List.getLast?_cons_cons] at hlast
      have hmid' : ∀ q ∈ (y :: ys).dropLast, (q.nextPageToken).isSome := by
        intro q hq
        apply hmid
        simp only [List.dropLast]
        exact List.mem_cons_of_mem x hq
      rw [ih hlast' hmid' (acc ++ x.items)]
      simp

/-- C8: `list_tables` follows pagination transparently — whenever every
response before the last carries a continuation token and the last carries
none, the loop keeps requesting and the returned `items` are exactly the
concatenation of every page's items, in order. -/
theorem list_tables_concats_all_pages (responses : List TablesPage) (p : TablesPage)
    (hlast : responses.getLast? = some p) (hnone : p.nextPageToken = none)
    (hmid : ∀ q ∈ responses.dropLast, (q.nextPageToken).isSome) :
    (list_tables responses).items = (responses.map TablesPage.items).flatten := by
  unfold list_tables
  rw [list_tables_go_spec responses p hlast hnone hmid []]
  simp

def c8_item (i : String) : TableItem := { id := i, name := "T" ++ i, tableType := "table" }

def c8_pages : List TablesPage :=
  [ { items := [c8_item "t1", c8_item "t2"], nextPageToken := some "tok1" }
  , { items := [c8_item "t3"], nextPageToken := none } ]

theorem list_tables_concats_all_pages_witness :
    (list_tables c8_pages).items = [c8_item "t1", c8_item "t2", c8_item "t3"] := by
  have h := list_tables_concats_all_pages c8_pages
    { items := [c8_item "t3"], nextPageToken := none }
    (by decide) (by decide) (by decide)
  rw [h]
  decide

/-! ## update_coda_dashboard_daily.py — executive-summary singleton replace -/

/-- Outcome of one `requests.post` call (status code, or a raised
exception). -/
inductive HttpResult where
  | status (code : ℕ)
  | exc (msg : String)
deriving DecidableEq

/-- The post-insert verification loop of `update_executive_summary_text`
(`max_retries = 8`): `poll retry` is the row count `list_rows` reports on the
given check (`.error` = `list_rows` raised, escaping to the outer `except`).
Exhausting the retries falls through to `return True` — the insertion was
accepted. -/
def verify_insert_loop (poll : ℕ → Except String ℕ) : ℕ → ℕ → Except String Bool
  | _, 0 => .ok true
  | retry, fuel + 1 =>
    match poll retry with
    | .error e => .error e
    | .ok count => if 1 ≤ count then .ok true else verify_insert_loop poll (retry + 1) fuel

/-- The candidate column identifiers the `except` branch retries, in order. -/
def fallback_candidates (column_id : Option String) (column_name : String) :
    List (Option String) :=
  [column_id, some column_name, some "Summary Text", some "Text", some "Content",
   some "Summary", some "Name"]

/-- The alternative-column retry loop of the `except` branch: skip `None`,
post, return `True` on 200/202, swallow exceptions, else continue; after the
loop the function prints an error and returns `False`. -/
def try_fallback_columns (fallbackPost : String → HttpResult) :
    List (Option String) → Bool
  | [] => false
  | none :: rest => try_fallback_columns fallbackPost rest
  | some col :: rest =>
    match fallbackPost col with
    | .status code =>
      if code = 200 ∨ code = 202 then true
      else try_fallback_columns fallbackPost rest
    | .exc _ => try_fallback_columns fallbackPost rest

/-- `CodaDashboardUpdater.update_executive_summary_text` from the insert call
onward: on 200/202 run the bounded verification polls and return `True` in
both outcomes (row observed, or retries exhausted with only a printed
warning); on an HTTP error status `raise_for_status` throws into the fallback
loop, as does an exception from the POST itself or from a poll; any other
status falls out of the `try` to the final `return False`. -/
def update_exec_summary_insert_phase (postResult : HttpResult)
    (poll : ℕ → Except String ℕ) (column_id : Option String)
    (column_name : String) (fallbackPost : String → HttpResult) : Bool :=
  match postResult with
  | .exc _ => try_fallback_columns fallbackPost (fallback_candidates column_id column_name)
  | .status code =>
    if code = 200 ∨ code = 202 then
      match verify_insert_loop poll 0 8 with
      | .ok b => b
      | .error _ =>
        try_fallback_columns fallbackPost (fallback_candidates column_id column_name)
    else if 400 ≤ code ∧ code < 600 then
      try_fallback_columns fallbackPost (fallback_candidates column_id column_name)
    else false

theorem verify_insert_loop_ok (poll : ℕ → Except String ℕ)
    (hpoll : ∀ i, ∃ c, poll i = .ok c) :
    ∀ fuel retry, verify_insert_loop poll retry fuel = .ok true := by
  intro fuel
  induction fuel with
  | zero => intro retry; rfl
  | succ n ih =>
    intro retry
    obtain ⟨c, hc⟩ := hpoll retry
    unfold verify_insert_loop
    rw [hc]
    dsimp only
    by_cases h1 : 1 ≤ c
    · rw [if_pos h1]
    · rw [if_neg h1]
      exact ih (retry + 1)

/-- C7: once the insert POST itself is accepted (status 200 synchronous or
202 accepted-for-async), the operation returns `True` whatever row counts the
polls observe — non-convergence within the poll bound is only a warning, never
a failure or an exception. -/
theorem insert_accepted_returns_success (code : ℕ) (poll : ℕ → Except String ℕ)
    (column_id : Option String) (column_name : String)
    (fallbackPost : String → HttpResult)
    (hcode : code = 200 ∨ code = 202) (hpoll : ∀ i, ∃ c, poll i = Except.ok c) :
    update_exec_summary_insert_phase (.status code) poll column_id column_name
      fallbackPost = true := by
  unfold update_exec_summary_insert_phase
  dsimp only
  rw [if_pos hcode, verify_insert_loop_ok poll hpoll 8 0]

/-- C7 witness: status 202 with polls that always report zero rows (the
expected count is never observed) still returns `True`. -/
theorem insert_accepted_returns_success_witness :
    update_exec_summary_insert_phase (.status 202) (fun _ => Except.ok 0) none
      "Summary Text" (fun _ => HttpResult.exc "down") = true :=
  insert_accepted_returns_success 202 (fun _ => Except.ok 0) none "Summary Text"
    (fun _ => HttpResult.exc "down") (Or.inr rfl) (fun _ => ⟨0, rfl⟩)

/-! ## coda_updater.py — parse_coda_url

`parse_coda_url` uses `re.search` with the pattern
`/d/[^/]+_d?([A-Za-z0-9]+)/(?:[^#]+_)?([A-Za-z0-9]+)` and the fallback
`/d/[^/]+_d?([A-Za-z0-9]+)`.  The constructs these patterns use (literals,
character classes, greedy `+` and `?`, groups) are embedded by a small
backtracking matcher with Python's leftmost-then-greedy strategy; `fuel`
bounds the recursion depth and is chosen large enough for the search to run
to completion. -/

/-- The regex constructs used by the two patterns. -/
inductive RE where
  | lit (c : Char)
  | cls (p : Char → Bool)
  | seq (a b : RE)
  | plus (r : RE)
  | opt (r : RE)
  | group (idx : ℕ) (r : RE)

/-- Group captures: group index paired with the captured substring. -/
def Caps := List (ℕ × String)

def capturedStr (s s' : List Char) : String :=
  String.mk (s.take (s.length - s'.length))

/-- Backtracking matcher in continuation style.  Alternatives are tried in
Python's order: `plus` prefers the longer match, `opt` prefers matching;
`k` receives the remaining input and the captures made so far. -/
def reMatch : ℕ → RE → List Char → Caps → (List Char → Caps → Option Caps) →
    Option Caps
  | 0, _, _, _, _ => none
  | _ + 1, .lit c, s, caps, k =>
    match s with
    | [] => none
    | c' :: rest => if c' = c then k rest caps else none
  | _ + 1, .cls p, s, caps, k =>
    match s with
    | [] => none
    | c' :: rest => if p c' then k rest caps else none
  | fuel + 1, .seq a b, s, caps, k =>
    reMatch fuel a s caps (fun s' caps' => reMatch fuel b s' caps' k)
  | fuel + 1, .opt r, s, caps, k =>
    match reMatch fuel r s caps k with
    | some res => some res
    | none => k s caps
  | fuel + 1, .plus r, s, caps, k =>
    reMatch fuel r s caps (fun s' caps' =>
      match reMatch fuel (.plus r) s' caps' k with
      | some res => some res
      | none => k s' caps')
  | fuel + 1, .group i r, s, caps, k =>
    reMatch fuel r s caps (fun s' caps' => k s' ((i, capturedStr s s') :: caps'))

/-- `re.search`: try a match at each start position, leftmost first. -/
def reSearchFrom (fuel : ℕ) (r : RE) : List Char → Option Caps
  | [] => reMatch fuel r [] [] (fun _ caps => some caps)
  | s@(_ :: rest) =>
    match reMatch fuel r s [] (fun _ caps => some caps) with
    | some caps => some caps
    | none => reSearchFrom fuel r rest

def reSearch (r : RE) (s : String) : Option Caps :=
  reSearchFrom (10 * s.length + 100) r s.toList

/-- `[A-Za-z0-9]` (ASCII letters and digits). -/
def alnumAscii : Char → Bool := fun c => c.isAlpha || c.isDigit

/-- `[^/]`. -/
def notSlash : Char → Bool := fun c => c != '/'

/-- `[^#]`. -/
def notHash : Char → Bool := fun c => c != '#'

/-- `/d/[^/]+_d?([A-Za-z0-9]+)/(?:[^#]+_)?([A-Za-z0-9]+)`. -/
def coda_url_pattern : RE :=
  .seq (.lit '/') (.seq (.lit 'd') (.seq (.lit '/')
    (.seq (.plus (.cls notSlash)) (.seq (.lit '_') (.seq (.opt (.lit 'd'))
      (.seq (.group 1 (.plus (.cls alnumAscii))) (.seq (.lit '/')
        (.seq (.opt (.seq (.plus (.cls notHash)) (.lit '_')))
          (.group 2 (.plus (.cls alnumAscii)))))))))))

/-- Fallback pattern `/d/[^/]+_d?([A-Za-z0-9]+)`. -/
def coda_url_doc_pattern : RE :=
  .seq (.lit '/') (.seq (.lit 'd') (.seq (.lit '/')
    (.seq (.plus (.cls notSlash)) (.seq (.lit '_') (.seq (.opt (.lit 'd'))
      (.group 1 (.plus (.cls alnumAscii))))))))

/-- `match.group(i)` (groups in these patterns always capture when the whole
pattern matches). -/
def capLookup (caps : Caps) (i : ℕ) : String :=
  match caps with
  | [] => ""
  | (j, v) :: rest => if j = i then v else capLookup rest i

/-- `parse_coda_url`; `none` models the `raise ValueError` exit, and the
`table_id = match.group(2) if match.group(2) else None` step maps an empty
capture to `None`. -/
def parse_coda_url (url : String) : Option (String × Option String) :=
  match reSearch coda_url_pattern url with
  | some caps =>
    some (capLookup caps 1,
      if capLookup caps 2 = "" then none else some (capLookup caps 2))
  | none =>
    match reSearch coda_url_doc_pattern url with
    | some caps => some (capLookup caps 1, none)
    | none => none

set_option maxRecDepth 10000

/-- C9: on a locator whose document segment is `nameAAA_dBBB` and whose table
segment is `tablename_CCC`, parsing returns document id `BBB` (the single
`d` prefix stripped) and table id `CCC`. -/
theorem parse_coda_url_strips_doc_id_prefix :
    parse_coda_url "https://coda.io/d/nameAAA_dBBB/tablename_CCC#pageXYZ" =
      some ("BBB", some "CCC") := by
  decide

end WbrUpdate
